import Mathlib

/-
Verification development for the `sdl-vulkan-classes` repository.

The repository is a thin C++ bootstrap layer over the Vulkan driver API and
SDL: it enumerates instance layers/extensions, creates an instance, selects a
physical device, validates and creates a logical device, and creates a
surface.  The driver and the windowing layer are external collaborators; we
model each driver interaction by an explicit environment record carrying the
result codes the driver returns and the data it fills into the caller's
buffers.  C++ exceptions are modelled by `Except`: `VulkanException(result,
message)` and `std::runtime_error(message)` become the two constructors of
`CppError`.
-/

namespace Vulkan

/-- `VkResult` is a C enum, i.e. a signed integer result code. -/
abbrev VkResult := Int

def VK_SUCCESS : VkResult := 0
def VK_NOT_READY : VkResult := 1
def VK_TIMEOUT : VkResult := 2
def VK_EVENT_SET : VkResult := 3
def VK_EVENT_RESET : VkResult := 4
def VK_INCOMPLETE : VkResult := 5
def VK_ERROR_OUT_OF_HOST_MEMORY : VkResult := -1
def VK_ERROR_OUT_OF_DEVICE_MEMORY : VkResult := -2
def VK_ERROR_INITIALIZATION_FAILED : VkResult := -3
def VK_ERROR_DEVICE_LOST : VkResult := -4
def VK_ERROR_MEMORY_MAP_FAILED : VkResult := -5
def VK_ERROR_LAYER_NOT_PRESENT : VkResult := -6
def VK_ERROR_EXTENSION_NOT_PRESENT : VkResult := -7
def VK_ERROR_FEATURE_NOT_PRESENT : VkResult := -8
def VK_ERROR_INCOMPATIBLE_DRIVER : VkResult := -9
def VK_ERROR_TOO_MANY_OBJECTS : VkResult := -10
def VK_ERROR_FORMAT_NOT_SUPPORTED : VkResult := -11
def VK_ERROR_FRAGMENTED_POOL : VkResult := -12
def VK_ERROR_UNKNOWN : VkResult := -13
def VK_ERROR_OUT_OF_POOL_MEMORY : VkResult := -1000069000
def VK_ERROR_INVALID_EXTERNAL_HANDLE : VkResult := -1000072003
def VK_ERROR_FRAGMENTATION : VkResult := -1000161000
def VK_ERROR_INVALID_OPAQUE_CAPTURE_ADDRESS : VkResult := -1000257000
def VK_ERROR_SURFACE_LOST_KHR : VkResult := -1000000000
def VK_ERROR_NATIVE_WINDOW_IN_USE_KHR : VkResult := -1000000001
def VK_SUBOPTIMAL_KHR : VkResult := 1000001003
def VK_ERROR_OUT_OF_DATE_KHR : VkResult := -1000001004
def VK_ERROR_INCOMPATIBLE_DISPLAY_KHR : VkResult := -1000003001
def VK_ERROR_VALIDATION_FAILED_EXT : VkResult := -1000011001
def VK_ERROR_INVALID_SHADER_NV : VkResult := -1000012000
def VK_ERROR_INVALID_DRM_FORMAT_MODIFIER_PLANE_LAYOUT_EXT : VkResult := -1000158000
def VK_ERROR_NOT_PERMITTED_EXT : VkResult := -1000174001
def VK_ERROR_FULL_SCREEN_EXCLUSIVE_MODE_LOST_EXT : VkResult := -1000255000
def VK_THREAD_IDLE_KHR : VkResult := 1000268000
def VK_THREAD_DONE_KHR : VkResult := 1000268001
def VK_OPERATION_DEFERRED_KHR : VkResult := 1000268002
def VK_OPERATION_NOT_DEFERRED_KHR : VkResult := 1000268003
def VK_PIPELINE_COMPILE_REQUIRED_EXT : VkResult := 1000297000

/-- The fixed `result_to_name` table of `src/vulkan.h` (lines 13-53): a
`std::map<VkResult, const char*>` from result codes to their symbolic names,
modelled as an association list (all keys are distinct). -/
def result_to_name : List (VkResult × String) :=
  [ (VK_SUCCESS, "VK_SUCCESS"),
    (VK_NOT_READY, "VK_NOT_READY"),
    (VK_TIMEOUT, "VK_TIMEOUT"),
    (VK_EVENT_SET, "VK_EVENT_SET"),
    (VK_EVENT_RESET, "VK_EVENT_RESET"),
    (VK_INCOMPLETE, "VK_INCOMPLETE"),
    (VK_ERROR_OUT_OF_HOST_MEMORY, "VK_ERROR_OUT_OF_HOST_MEMORY"),
    (VK_ERROR_OUT_OF_DEVICE_MEMORY, "VK_ERROR_OUT_OF_DEVICE_MEMORY"),
    (VK_ERROR_INITIALIZATION_FAILED, "VK_ERROR_INITIALIZATION_FAILED"),
    (VK_ERROR_DEVICE_LOST, "VK_ERROR_DEVICE_LOST"),
    (VK_ERROR_MEMORY_MAP_FAILED, "VK_ERROR_MEMORY_MAP_FAILED"),
    (VK_ERROR_LAYER_NOT_PRESENT, "VK_ERROR_LAYER_NOT_PRESENT"),
    (VK_ERROR_EXTENSION_NOT_PRESENT, "VK_ERROR_EXTENSION_NOT_PRESENT"),
    (VK_ERROR_FEATURE_NOT_PRESENT, "VK_ERROR_FEATURE_NOT_PRESENT"),
    (VK_ERROR_INCOMPATIBLE_DRIVER, "VK_ERROR_INCOMPATIBLE_DRIVER"),
    (VK_ERROR_TOO_MANY_OBJECTS, "VK_ERROR_TOO_MANY_OBJECTS"),
    (VK_ERROR_FORMAT_NOT_SUPPORTED, "VK_ERROR_FORMAT_NOT_SUPPORTED"),
    (VK_ERROR_FRAGMENTED_POOL, "VK_ERROR_FRAGMENTED_POOL"),
    (VK_ERROR_UNKNOWN, "VK_ERROR_UNKNOWN"),
    (VK_ERROR_OUT_OF_POOL_MEMORY, "VK_ERROR_OUT_OF_POOL_MEMORY"),
    (VK_ERROR_INVALID_EXTERNAL_HANDLE, "VK_ERROR_INVALID_EXTERNAL_HANDLE"),
    (VK_ERROR_FRAGMENTATION, "VK_ERROR_FRAGMENTATION"),
    (VK_ERROR_INVALID_OPAQUE_CAPTURE_ADDRESS, "VK_ERROR_INVALID_OPAQUE_CAPTURE_ADDRESS"),
    (VK_ERROR_SURFACE_LOST_KHR, "VK_ERROR_SURFACE_LOST_KHR"),
    (VK_ERROR_NATIVE_WINDOW_IN_USE_KHR, "VK_ERROR_NATIVE_WINDOW_IN_USE_KHR"),
    (VK_SUBOPTIMAL_KHR, "VK_SUBOPTIMAL_KHR"),
    (VK_ERROR_OUT_OF_DATE_KHR, "VK_ERROR_OUT_OF_DATE_KHR"),
    (VK_ERROR_INCOMPATIBLE_DISPLAY_KHR, "VK_ERROR_INCOMPATIBLE_DISPLAY_KHR"),
    (VK_ERROR_VALIDATION_FAILED_EXT, "VK_ERROR_VALIDATION_FAILED_EXT"),
    (VK_ERROR_INVALID_SHADER_NV, "VK_ERROR_INVALID_SHADER_NV"),
    (VK_ERROR_INVALID_DRM_FORMAT_MODIFIER_PLANE_LAYOUT_EXT,
      "VK_ERROR_INVALID_DRM_FORMAT_MODIFIER_PLANE_LAYOUT_EXT"),
    (VK_ERROR_NOT_PERMITTED_EXT, "VK_ERROR_NOT_PERMITTED_EXT"),
    (VK_ERROR_FULL_SCREEN_EXCLUSIVE_MODE_LOST_EXT,
      "VK_ERROR_FULL_SCREEN_EXCLUSIVE_MODE_LOST_EXT"),
    (VK_THREAD_IDLE_KHR, "VK_THREAD_IDLE_KHR"),
    (VK_THREAD_DONE_KHR, "VK_THREAD_DONE_KHR"),
    (VK_OPERATION_DEFERRED_KHR, "VK_OPERATION_DEFERRED_KHR"),
    (VK_OPERATION_NOT_DEFERRED_KHR, "VK_OPERATION_NOT_DEFERRED_KHR"),
    (VK_PIPELINE_COMPILE_REQUIRED_EXT, "VK_PIPELINE_COMPILE_REQUIRED_EXT") ]

/-- `VulkanException::enum_name` (src/unnamed/part_000 lines 19-30): look the
stored result code up in `result_to_name`; if it is absent return the sentinel
`"???"`, otherwise return the mapped name. -/
def enum_name (result : VkResult) : String :=
  match result_to_name.lookup result with
  | none => "???"
  | some s => s

/-- The two kinds of exception the code throws: `VulkanException(result,
message)` and plain `std::runtime_error(message)`. -/
inductive CppError where
  | vulkanException (result : VkResult) (message : String)
  | runtimeError (message : String)
deriving DecidableEq

/-- `LayerInfo` (src/vulkan.h lines 106-112). -/
structure LayerInfo where
  name : String
  description : String
  specVersion : Nat
  implementationVersion : Nat
deriving DecidableEq

/-- `ExtensionInfo` (src/vulkan.h lines 98-102). -/
structure ExtensionInfo where
  name : String
  specVersion : Nat
deriving DecidableEq

/-- The driver-side `VkLayerProperties` record (fixed char arrays modelled as
strings). -/
structure VkLayerProperties where
  layerName : String
  description : String
  specVersion : Nat
  implementationVersion : Nat
deriving DecidableEq

/-- The driver-side `VkExtensionProperties` record. -/
structure VkExtensionProperties where
  extensionName : String
  specVersion : Nat
deriving DecidableEq

/-- One `std::set<std::string>::insert`: a `std::set` keeps its elements
sorted by `operator<` (lexicographic on strings) with no duplicates; we model
it as insertion into a sorted duplicate-free list. -/
def setInsert : List String → String → List String
  | [], x => [x]
  | y :: ys, x =>
    if x < y then x :: y :: ys
    else if x = y then y :: ys
    else y :: setInsert ys x

/-- Building a `std::set<std::string>` by inserting every element of a list in
order (the loops at src/test.cpp lines 101-105 and src/unnamed/part_000 lines
292-297). -/
def setOfList (l : List String) : List String :=
  l.foldl setInsert []

/-- `filter_by_name` (src/test.cpp lines 96-117): build a `std::set` from
`names_vec`, then keep, in order, every element of `infos` whose name is a
member of that set.  The C++ template is parametrised by the `Info` type; here
the field access `info.name` becomes the projection argument `name`. -/
def filter_by_name {α : Type} (name : α → String)
    (infos : List α) (names_vec : List String) : List α :=
  let names := setOfList names_vec
  infos.filter (fun info => decide (name info ∈ names))

/-- Environment for `get_layer_infos`: the first
`vkEnumerateInstanceLayerProperties` call returns `countResult` and reports
`layers.length` as the count; the second call returns `fillResult` and fills
the buffer with `layers`. -/
structure LayerEnv where
  countResult : VkResult
  layers : List VkLayerProperties
  fillResult : VkResult

/-- The loop body of `get_layer_infos` (src/unnamed/part_000 lines 70-78):
copy each `VkLayerProperties` field into a `LayerInfo`. -/
def layer_info_of (p : VkLayerProperties) : LayerInfo :=
  { name := p.layerName
    description := p.description
    specVersion := p.specVersion
    implementationVersion := p.implementationVersion }

/-- `get_layer_infos` (src/unnamed/part_000 lines 49-83).  Note that `result`
is reassigned by the second (buffer-filling) call at line 66 but never tested
afterwards: the function returns the marshalled vector whatever
`env.fillResult` is. -/
def get_layer_infos (env : LayerEnv) : Except CppError (List LayerInfo) :=
  if env.countResult ≠ VK_SUCCESS then
    .error (.vulkanException env.countResult "Error getting number of layers")
  else if env.layers.length = 0 then
    .error (.runtimeError "Layer count non-positive")
  else
    .ok (env.layers.map layer_info_of)

/-- Environment for `get_extension_infos`, analogous to `LayerEnv`. -/
structure ExtensionEnv where
  countResult : VkResult
  properties : List VkExtensionProperties
  fillResult : VkResult

/-- The loop body of `get_extension_infos` (src/unnamed/part_000 lines
106-112). -/
def extension_info_of (p : VkExtensionProperties) : ExtensionInfo :=
  { name := p.extensionName
    specVersion := p.specVersion }

/-- `get_extension_infos` (src/unnamed/part_000 lines 85-117).  As in
`get_layer_infos`, the second call's result (line 102) is assigned but never
examined. -/
def get_extension_infos (env : ExtensionEnv) : Except CppError (List ExtensionInfo) :=
  if env.countResult ≠ VK_SUCCESS then
    .error (.vulkanException env.countResult "Error getting number of extensions")
  else if env.properties.length = 0 then
    .error (.runtimeError "Extension count zero")
  else
    .ok (env.properties.map extension_info_of)

/-- Environment for `get_extension_names`: the two
`SDL_Vulkan_GetInstanceExtensions` calls succeed or fail as booleans; on
success the driver reports `names.length` names and fills `names`. -/
structure SdlExtensionEnv where
  countSuccess : Bool
  names : List String
  fillSuccess : Bool

/-- `get_extension_names` (src/unnamed/part_000 lines 119-146).  Both SDL
calls are checked for failure, but — unlike the three Vulkan queries — there
is no test of the count against zero: with a zero count the loop runs zero
times and the empty vector is returned. -/
def get_extension_names (env : SdlExtensionEnv) : Except CppError (List String) :=
  if ¬ env.countSuccess then
    .error (.runtimeError "SDL_Vulkan failed to get number of instance extensions\n")
  else if ¬ env.fillSuccess then
    .error (.runtimeError "SDL_Vulkan failed to get names of instance extensions\n")
  else
    .ok env.names

/-- `ICreateInstanceParameters` (src/vulkan.h lines 151-158): requested layers
and extensions plus the application/engine identity. -/
structure ICreateInstanceParameters where
  requested_layers : List LayerInfo
  requested_extensions : List ExtensionInfo
  application_name : String
  application_version : Int
  engine_name : String
  engine_version : Int

def VK_API_VERSION_1_0 : Nat := 4194304

/-- `VkApplicationInfo` as filled in by `Instance::Instance`
(src/unnamed/part_000 lines 189-198). -/
structure VkApplicationInfo where
  pApplicationName : String
  applicationVersion : Int
  pEngineName : String
  engineVersion : Int
  apiVersion : Nat

/-- `VkInstanceCreateInfo` as filled in by `Instance::Instance`
(src/unnamed/part_000 lines 200-210); the two `NamesArray` buffers marshal the
requested layer/extension names, so the count/pointer pairs are modelled as
the corresponding name lists. -/
structure VkInstanceCreateInfo where
  pApplicationInfo : VkApplicationInfo
  enabledExtensionNames : List String
  enabledLayerNames : List String

/-- The instance-creation record `Instance::Instance` submits to
`vkCreateInstance`. -/
def instance_create_info (parameters : ICreateInstanceParameters) : VkInstanceCreateInfo :=
  { pApplicationInfo :=
      { pApplicationName := parameters.application_name
        applicationVersion := parameters.application_version
        pEngineName := parameters.engine_name
        engineVersion := parameters.engine_version
        apiVersion := VK_API_VERSION_1_0 }
    enabledExtensionNames := parameters.requested_extensions.map ExtensionInfo.name
    enabledLayerNames := parameters.requested_layers.map LayerInfo.name }

/-- Environment for `Instance::Instance`: `vkCreateInstance` returns
`createResult applied to the submitted record`, and on success writes
`instanceHandle`. -/
structure InstanceEnv where
  createResult : VkInstanceCreateInfo → VkResult
  instanceHandle : Nat

/-- `Instance::Instance` (src/unnamed/part_000 lines 178-217), paired with the
number of heap arrays still allocated when the constructor exits.  The two
`NamesArray` marshalling buffers are RAII objects (lines 148-176): their
destructors run on every exit path, including the exception throw at line 215,
so they never contribute a leak — the allocation balance is 0 on both paths. -/
def create_instance_run (parameters : ICreateInstanceParameters) (env : InstanceEnv) :
    Except CppError Nat × Nat :=
  if env.createResult (instance_create_info parameters) ≠ VK_SUCCESS then
    (.error (.vulkanException (env.createResult (instance_create_info parameters))
      "Error while creating vulkan instance"), 0)
  else
    (.ok env.instanceHandle, 0)

/-- `PhysicalDevice` (src/vulkan.h lines 125-147): a raw device handle
(modelled as `Nat`) together with the queue-family index fixed at selection
time. -/
structure PhysicalDevice where
  physical_device : Nat
  queue_family_index : Nat
deriving DecidableEq

/-- Environment for `Instance::select_gpu`: the two
`vkEnumeratePhysicalDevices` calls return `countResult`/`fillResult`, the
driver reports `devices.length` devices and fills `devices`. -/
structure GpuEnv where
  countResult : VkResult
  devices : List Nat
  fillResult : VkResult

/-- `Instance::select_gpu` (src/unnamed/part_000 lines 223-254): check both
enumeration results, then take the device at `index = 0` and build a
`PhysicalDevice` from it, reusing the same `index` as the queue-family index.
Reading `physicalDevices[0]` from an empty enumeration is undefined behaviour
in the source; `getD` supplies an arbitrary value (`0`) in that case. -/
def select_gpu (env : GpuEnv) : Except CppError PhysicalDevice :=
  if env.countResult ≠ VK_SUCCESS then
    .error (.vulkanException env.countResult "Error getting number of physical devices")
  else if env.fillResult ≠ VK_SUCCESS then
    .error (.vulkanException env.fillResult "Error getting list of physical devices")
  else
    .ok { physical_device := env.devices.getD 0 0, queue_family_index := 0 }

/-- `Surface` (src/vulkan.h lines 74-82): an opaque surface handle. -/
structure Surface where
  surface : Nat
deriving DecidableEq

/-- The driver behaviour behind `vkGetPhysicalDeviceSurfaceSupportKHR`, as
functions of the three arguments the code passes (physical device handle,
queue family index, surface handle): `result` is the returned `VkResult` and
`answer` the value the driver writes into the output parameter on success. -/
structure SurfaceSupportDriver where
  result : Nat → Nat → Nat → VkResult
  answer : Nat → Nat → Nat → Bool

/-- `PhysicalDevice::is_surface_supported` (src/unnamed/part_000 lines 41-47):
`supported` is initialised to `false`, the driver is queried at the stored
`queue_family_index`, and `supported` is returned without ever inspecting the
call's `VkResult` — on a failed query the output variable keeps its
initialisation, so a driver error is indistinguishable from a genuine
negative answer. -/
def is_surface_supported (pd : PhysicalDevice) (s : Surface)
    (driver : SurfaceSupportDriver) : Bool :=
  if driver.result pd.physical_device pd.queue_family_index s.surface = VK_SUCCESS then
    driver.answer pd.physical_device pd.queue_family_index s.surface
  else
    false

/-- `LogicalDevice` (src/vulkan.h lines 86-94): the created device handle plus
the queue-family index it was built against. -/
structure LogicalDevice where
  device : Nat
  queue_family_index : Nat
deriving DecidableEq

/-- `IRequestLayerAndExtensions` (src/vulkan.h lines 115-120). -/
structure IRequestLayerAndExtensions where
  requested_layers : List LayerInfo
  requested_extensions : List ExtensionInfo

/-- `VkDeviceQueueCreateInfo` as filled in by
`PhysicalDevice::create_logical_device` (src/unnamed/part_000 lines 331-338);
the single priority `1.0f` is modelled as `1`. -/
structure VkDeviceQueueCreateInfo where
  queueFamilyIndex : Nat
  queueCount : Nat
  queuePriorities : List Nat
deriving DecidableEq

/-- `VkDeviceCreateInfo` as filled in at lines 340-353; the `NamesArray`
marshalled layer/extension names become the corresponding name lists. -/
structure VkDeviceCreateInfo where
  queueCreateInfos : List VkDeviceQueueCreateInfo
  enabledLayerNames : List String
  enabledExtensionNames : List String
deriving DecidableEq

/-- The queue-creation request built at lines 331-338: a single queue of the
`PhysicalDevice`'s stored queue family. -/
def queue_create_info (pd : PhysicalDevice) : VkDeviceQueueCreateInfo :=
  { queueFamilyIndex := pd.queue_family_index
    queueCount := 1
    queuePriorities := [1] }

/-- The device-creation request submitted to `vkCreateDevice` at line 357:
one queue-create record plus the marshalled requested layer and extension
names (lines 328-329 and 340-353). -/
def device_create_info (pd : PhysicalDevice)
    (parameters : IRequestLayerAndExtensions) : VkDeviceCreateInfo :=
  { queueCreateInfos := [queue_create_info pd]
    enabledLayerNames := parameters.requested_layers.map LayerInfo.name
    enabledExtensionNames := parameters.requested_extensions.map ExtensionInfo.name }

/-- Environment for `create_logical_device`: the two
`vkEnumerateDeviceExtensionProperties` calls return
`extCountResult`/`extFillResult`, the driver reports
`deviceExtensions.length` properties and fills `deviceExtensions`;
`vkCreateDevice` returns `createDevice` applied to the submitted record and
on success writes `deviceHandle`. -/
structure DeviceEnv where
  extCountResult : VkResult
  deviceExtensions : List VkExtensionProperties
  extFillResult : VkResult
  createDevice : VkDeviceCreateInfo → VkResult
  deviceHandle : Nat

/-- The local `requested_extension_name_set` of `create_logical_device`
(src/unnamed/part_000 lines 292-297): the `std::set` of the requested
extension names. -/
def requested_name_set (parameters : IRequestLayerAndExtensions) : List String :=
  setOfList (parameters.requested_extensions.map ExtensionInfo.name)

/-- The local `found_extension_names` (lines 299-307): iterate the queried
device extension properties in order and insert into a `std::set` every name
that is a member of the requested set.  Folding `setInsert` over the filtered
name list is exactly that loop. -/
def found_name_set (parameters : IRequestLayerAndExtensions)
    (supported : List VkExtensionProperties) : List String :=
  setOfList ((supported.map VkExtensionProperties.extensionName).filter
    (fun n => decide (n ∈ requested_name_set parameters)))

/-- The local `not_found_names` (lines 311-317): `std::set_difference` of the
two sorted sets.  On sorted duplicate-free ranges `std::set_difference`
produces exactly the elements of the first range that are absent from the
second, in order, which is this filter. -/
def not_found_names (parameters : IRequestLayerAndExtensions)
    (supported : List VkExtensionProperties) : List String :=
  (requested_name_set parameters).filter
    (fun n => decide (n ∉ found_name_set parameters supported))

/-- The local `not_found_names_str` (lines 319-323): concatenate `" " + name`
for each missing name, starting from the empty string. -/
def not_found_names_str (parameters : IRequestLayerAndExtensions)
    (supported : List VkExtensionProperties) : String :=
  (not_found_names parameters supported).foldl (fun acc name => acc ++ " " ++ name) ""

/-- `PhysicalDevice::create_logical_device` (src/unnamed/part_000 lines
262-365), paired with the number of heap arrays still allocated when the
function exits.  The accounting follows the source exactly:
`extension_properties` is a raw `new[]` array allocated at line 281 whose only
`delete[]` is at line 363, just before the `return` — every `throw` after line
281 exits with it still allocated (balance 1).  The two `NamesArray`
marshalling objects (lines 328-329) are RAII and release their buffers on
every exit path, contributing 0. -/
def create_logical_device_run (pd : PhysicalDevice)
    (parameters : IRequestLayerAndExtensions) (env : DeviceEnv) :
    Except CppError LogicalDevice × Nat :=
  if env.extCountResult ≠ VK_SUCCESS then
    (.error (.vulkanException env.extCountResult
      "Error while getting size of properties list for device"), 0)
  else if env.deviceExtensions.length = 0 then
    (.error (.runtimeError "No properties array found for physical device"), 0)
  else if env.extFillResult ≠ VK_SUCCESS then
    (.error (.vulkanException env.extFillResult
      "Error while getting list of device extension properties"), 1)
  else if (found_name_set parameters env.deviceExtensions).length ≠
      (requested_name_set parameters).length then
    (.error (.runtimeError
      ("Not all extensions found:" ++ not_found_names_str parameters env.deviceExtensions)), 1)
  else if env.createDevice (device_create_info pd parameters) ≠ VK_SUCCESS then
    (.error (.vulkanException (env.createDevice (device_create_info pd parameters))
      "Error while creating logical devive"), 1)
  else
    (.ok { device := env.deviceHandle, queue_family_index := pd.queue_family_index }, 0)

/-- The result of `PhysicalDevice::create_logical_device`, forgetting the
allocation balance. -/
def create_logical_device (pd : PhysicalDevice)
    (parameters : IRequestLayerAndExtensions) (env : DeviceEnv) :
    Except CppError LogicalDevice :=
  (create_logical_device_run pd parameters env).1

/-- Recogniser for the spec's `UnsatisfiedRequirement` failure: the code
raises it as a `std::runtime_error` whose message is the fixed text
`"Not all extensions found:"` followed by the missing names (line 325); no
other error in the component carries that text.  Comparing the first 25
characters keeps the test kernel-computable. -/
def unsatisfied_requirement_b : Except CppError LogicalDevice → Bool
  | .error (.runtimeError msg) =>
      decide (msg.data.take 25 = "Not all extensions found:".data)
  | _ => false

/-- The spec's description of the error payload: the missing names joined by
spaces, each name preceded by one space (as the loop at lines 320-323
produces). -/
def space_join : List String → String
  | [] => ""
  | n :: ns => " " ++ n ++ space_join ns

/-! ### Helper lemmas about the `std::set` model -/

theorem mem_setInsert {s : List String} {x a : String} :
    a ∈ setInsert s x ↔ a = x ∨ a ∈ s := by
  induction s with
  | nil => simp [setInsert]
  | cons y ys ih =>
    rw [setInsert]
    split
    · simp [List.mem_cons]
    · split
      · next h h2 =>
        subst h2
        simp [List.mem_cons]
      · simp [List.mem_cons, ih]
        tauto

theorem sorted_setInsert {s : List String} (hs : s.Sorted (· < ·)) (x : String) :
    (setInsert s x).Sorted (· < ·) := by
  induction s with
  | nil => simp [setInsert]
  | cons y ys ih =>
    rw [List.sorted_cons] at hs
    obtain ⟨hy, hys⟩ := hs
    rw [setInsert]
    split
    · next hxy =>
      rw [List.sorted_cons]
      refine ⟨?_, ?_⟩
      · intro b hb
        rcases List.mem_cons.mp hb with rfl | hb
        · exact hxy
        · exact lt_trans hxy (hy b hb)
      · rw [List.sorted_cons]
        exact ⟨hy, hys⟩
    · split
      · rw [List.sorted_cons]
        exact ⟨hy, hys⟩
      · next hxy hxeq =>
        rw [List.sorted_cons]
        refine ⟨?_, ih hys⟩
        intro b hb
        rcases mem_setInsert.mp hb with rfl | hb
        · exact lt_of_le_of_ne (le_of_not_lt hxy) (Ne.symm hxeq)
        · exact hy b hb

theorem mem_foldl_setInsert (l : List String) (init : List String) (a : String) :
    a ∈ l.foldl setInsert init ↔ a ∈ init ∨ a ∈ l := by
  induction l generalizing init with
  | nil => simp
  | cons x xs ih =>
    rw [List.foldl_cons, ih, mem_setInsert]
    simp [List.mem_cons]
    tauto

theorem mem_setOfList {l : List String} {a : String} : a ∈ setOfList l ↔ a ∈ l := by
  rw [setOfList, mem_foldl_setInsert]
  simp

theorem sorted_foldl_setInsert (l : List String) (init : List String)
    (h : init.Sorted (· < ·)) : (l.foldl setInsert init).Sorted (· < ·) := by
  induction l generalizing init with
  | nil => exact h
  | cons x xs ih => exact ih _ (sorted_setInsert h x)

theorem sorted_setOfList (l : List String) : (setOfList l).Sorted (· < ·) :=
  sorted_foldl_setInsert l [] (by simp)

theorem nodup_setOfList (l : List String) : (setOfList l).Nodup :=
  (sorted_setOfList l).nodup

/-- For duplicate-free lists, a subset has equal length exactly when it is
also a superset. -/
theorem nodup_subset_length_eq {A B : List String} (hA : A.Nodup) (hB : B.Nodup)
    (hsub : ∀ a ∈ A, a ∈ B) : A.length = B.length ↔ ∀ b ∈ B, b ∈ A := by
  constructor
  · intro hlen b hb
    have hsp : A.Subperm B := List.subperm_of_subset hA hsub
    exact (hsp.perm_of_length_le (le_of_eq hlen.symm)).mem_iff.mpr hb
  · intro hsup
    have h1 : A.Subperm B := List.subperm_of_subset hA hsub
    have h2 : B.Subperm A := List.subperm_of_subset hB hsup
    exact le_antisymm h1.length_le h2.length_le

/-! ### Helper lemmas about strings -/

theorem string_data_append (a b : String) : (a ++ b).data = a.data ++ b.data := by
  cases a with | mk la => cases b with | mk lb => rfl

theorem string_append_assoc (a b c : String) : a ++ b ++ c = a ++ (b ++ c) := by
  cases a with | mk la =>
  cases b with | mk lb =>
  cases c with | mk lc =>
  show String.mk (la ++ lb ++ lc) = String.mk (la ++ (lb ++ lc))
  rw [List.append_assoc]

theorem string_empty_append (a : String) : "" ++ a = a := by
  cases a with | mk la => rfl

theorem foldl_space_append (l : List String) (s : String) :
    l.foldl (fun acc name => acc ++ " " ++ name) s = s ++ space_join l := by
  induction l generalizing s with
  | nil =>
    rw [List.foldl_nil, space_join]
    cases s with | mk ls =>
    show String.mk ls = String.mk (ls ++ [])
    rw [List.append_nil]
  | cons x xs ih =>
    rw [List.foldl_cons, ih, space_join]
    rw [string_append_assoc, string_append_assoc, string_append_assoc]

theorem unsat_b_of_payload (payload : String) :
    unsatisfied_requirement_b (.error (.runtimeError
      ("Not all extensions found:" ++ payload))) = true := by
  rw [unsatisfied_requirement_b]
  rw [decide_eq_true_iff]
  rw [string_data_append]
  have h25 : ("Not all extensions found:".data).length = 25 := rfl
  rw [← h25, List.take_left]

/-! ### Helper lemmas about association-list lookup -/

theorem lookup_eq_some_of_mem {l : List (VkResult × String)}
    (nd : (l.map Prod.fst).Nodup) {r : VkResult} {s : String}
    (h : (r, s) ∈ l) : l.lookup r = some s := by
  induction l with
  | nil => cases h
  | cons p t ih =>
    rw [List.map_cons, List.nodup_cons] at nd
    rcases List.mem_cons.mp h with he | ht
    · subst he
      simp [List.lookup]
    · cases p with | mk k v =>
      have hne : (r == k) = false := by
        rw [beq_eq_false_iff_ne]
        intro he
        subst he
        have hmem := List.mem_map_of_mem Prod.fst ht
        exact nd.1 hmem
      rw [List.lookup, hne]
      exact ih nd.2 ht

theorem lookup_eq_none_of_not_mem_keys {l : List (VkResult × String)} {r : VkResult}
    (h : r ∉ l.map Prod.fst) : l.lookup r = none := by
  induction l with
  | nil => rfl
  | cons p t ih =>
    rw [List.map_cons, List.mem_cons] at h
    push_neg at h
    cases p with | mk k v =>
    have hne : (r == k) = false := beq_eq_false_iff_ne.mpr h.1
    rw [List.lookup, hne]
    exact ih h.2

/-! ### Claim theorems -/

/-- C5: the symbolic-name lookup used by `DriverCreateError` is total — every
code present in the fixed `result_to_name` table maps to its symbolic name
(in particular `VK_ERROR_LAYER_NOT_PRESENT` maps to
`"VK_ERROR_LAYER_NOT_PRESENT"`), and every code not in the table maps to the
sentinel `"???"`; `enum_name` is a total function, so the lookup never fails
on an unrecognized code. -/
theorem c5_enum_name_total_lookup :
    (∀ (r : VkResult) (s : String), (r, s) ∈ result_to_name → enum_name r = s) ∧
    (∀ r : VkResult, r ∉ result_to_name.map Prod.fst → enum_name r = "???") ∧
    enum_name VK_ERROR_LAYER_NOT_PRESENT = "VK_ERROR_LAYER_NOT_PRESENT" := by
  refine ⟨?_, ?_, by decide⟩
  · intro r s h
    rw [enum_name, lookup_eq_some_of_mem (by decide) h]
  · intro r h
    rw [enum_name, lookup_eq_none_of_not_mem_keys h]

theorem c5_enum_name_total_lookup_witness :
    enum_name (-6) = "VK_ERROR_LAYER_NOT_PRESENT" ∧ enum_name 42424242 = "???" :=
  ⟨c5_enum_name_total_lookup.1 (-6) "VK_ERROR_LAYER_NOT_PRESENT" (by decide),
   c5_enum_name_total_lookup.2.1 42424242 (by decide)⟩

/-- C6: `is_surface_supported` returns a plain boolean (its type has no
failure path).  When the driver call reports a non-success result, the output
variable keeps its `false` initialisation, so a driver error yields exactly
the same observable answer as a genuine driver-reported "not supported". -/
theorem c6_is_surface_supported_conflates_error (pd : PhysicalDevice) (s : Surface)
    (driver : SurfaceSupportDriver) :
    (driver.result pd.physical_device pd.queue_family_index s.surface ≠ VK_SUCCESS →
      is_surface_supported pd s driver = false) ∧
    (driver.result pd.physical_device pd.queue_family_index s.surface = VK_SUCCESS →
      is_surface_supported pd s driver =
        driver.answer pd.physical_device pd.queue_family_index s.surface) := by
  constructor
  · intro h
    rw [is_surface_supported, if_neg h]
  · intro h
    rw [is_surface_supported, if_pos h]

theorem c6_is_surface_supported_conflates_error_witness :
    is_surface_supported ⟨1, 0⟩ ⟨2⟩
      { result := fun _ _ _ => -1, answer := fun _ _ _ => true } = false ∧
    is_surface_supported ⟨1, 0⟩ ⟨2⟩
      { result := fun _ _ _ => 0, answer := fun _ _ _ => false } = false :=
  ⟨(c6_is_surface_supported_conflates_error ⟨1, 0⟩ ⟨2⟩
      { result := fun _ _ _ => -1, answer := fun _ _ _ => true }).1 (by decide),
   (c6_is_surface_supported_conflates_error ⟨1, 0⟩ ⟨2⟩
      { result := fun _ _ _ => 0, answer := fun _ _ _ => false }).2 rfl⟩

/-- C4: on a successful enumeration exposing the non-empty accelerator list
`d :: ds`, `select_gpu` deterministically returns the descriptor for the
element at index 0, and the queue-family index stored in that descriptor is
also the fixed array index 0 (queue-family properties are never queried). -/
theorem c4_select_gpu_index_zero (d : Nat) (ds : List Nat) :
    select_gpu { countResult := VK_SUCCESS, devices := d :: ds, fillResult := VK_SUCCESS } =
      .ok { physical_device := d, queue_family_index := 0 } := rfl

/-- C3 (amended): for the three Vulkan count-then-fill queries — the layer
query, the global extension query and the per-device extension query — a
successful count call reporting zero makes the operation fail with the
`EmptyResult` runtime error; the SDL window-required-extension-name query, by
contrast, performs no zero-count check and silently returns the empty
sequence. -/
theorem c3_zero_count_queries (fr : VkResult) :
    (get_layer_infos { countResult := VK_SUCCESS, layers := [], fillResult := fr } =
      .error (.runtimeError "Layer count non-positive")) ∧
    (get_extension_infos { countResult := VK_SUCCESS, properties := [], fillResult := fr } =
      .error (.runtimeError "Extension count zero")) ∧
    (∀ (pd : PhysicalDevice) (parameters : IRequestLayerAndExtensions)
        (createDevice : VkDeviceCreateInfo → VkResult) (handle : Nat),
      create_logical_device pd parameters
        { extCountResult := VK_SUCCESS, deviceExtensions := [], extFillResult := fr,
          createDevice := createDevice, deviceHandle := handle } =
        .error (.runtimeError "No properties array found for physical device")) ∧
    (get_extension_names { countSuccess := true, names := [], fillSuccess := true } =
      .ok []) :=
  ⟨rfl, rfl, fun _ _ _ _ => rfl, rfl⟩

/-- C3 counterexample: the window-required-extension-name query with a zero
count (both SDL calls succeeding) returns the empty sequence silently instead
of failing with `EmptyResult` as the claim states. -/
theorem c3_window_query_returns_empty_silently :
    get_extension_names { countSuccess := true, names := [], fillSuccess := true } =
      .ok [] := rfl

/-- C10: in `get_layer_infos` and `get_extension_infos` the result code of the
second (buffer-filling) enumeration call is assigned but never examined: the
outcome is identical for any two fill results, and whenever the first (count)
call succeeds with a non-zero count the operation returns the sequence built
from the buffer no matter what the fill call reported. -/
theorem c10_fill_result_never_examined :
    (∀ (cr : VkResult) (ls : List VkLayerProperties) (fr fr2 : VkResult),
      get_layer_infos { countResult := cr, layers := ls, fillResult := fr } =
        get_layer_infos { countResult := cr, layers := ls, fillResult := fr2 }) ∧
    (∀ (p : VkLayerProperties) (ls : List VkLayerProperties) (fr : VkResult),
      get_layer_infos { countResult := VK_SUCCESS, layers := (p :: ls), fillResult := fr } =
        .ok ((p :: ls).map layer_info_of)) ∧
    (∀ (cr : VkResult) (ps : List VkExtensionProperties) (fr fr2 : VkResult),
      get_extension_infos { countResult := cr, properties := ps, fillResult := fr } =
        get_extension_infos { countResult := cr, properties := ps, fillResult := fr2 }) ∧
    (∀ (p : VkExtensionProperties) (ps : List VkExtensionProperties) (fr : VkResult),
      get_extension_infos
          { countResult := VK_SUCCESS, properties := (p :: ps), fillResult := fr } =
        .ok ((p :: ps).map extension_info_of)) :=
  ⟨fun _ _ _ _ => rfl, fun _ _ _ => rfl, fun _ _ _ _ => rfl, fun _ _ _ => rfl⟩

/-- C2: `filter_by_name` returns exactly the elements of `L` whose name is a
member of `N`, in the relative order they have in `L` (it equals the
order-preserving `List.filter`); in particular it returns the empty sequence
whenever `N` is empty or `N` is disjoint from the names of `L`.  Being a total
Lean function, it never raises an error. -/
theorem c2_filter_by_name_spec {α : Type} (name : α → String)
    (L : List α) (N : List String) :
    filter_by_name name L N = L.filter (fun x => decide (name x ∈ N)) ∧
    (N = [] → filter_by_name name L N = []) ∧
    ((∀ x ∈ L, name x ∉ N) → filter_by_name name L N = []) := by
  have hmain : filter_by_name name L N = L.filter (fun x => decide (name x ∈ N)) := by
    simp only [filter_by_name]
    refine List.filter_congr ?_
    intro x _
    rw [decide_eq_decide]
    exact mem_setOfList
  refine ⟨hmain, ?_, ?_⟩
  · intro h
    subst h
    rw [hmain]
    simp
  · intro h
    rw [hmain, List.filter_eq_nil_iff]
    intro a ha
    simp [h a ha]

theorem c2_filter_by_name_spec_witness :
    filter_by_name ExtensionInfo.name [⟨"a", 1⟩, ⟨"b", 2⟩] [] = [] ∧
    filter_by_name ExtensionInfo.name [⟨"a", 1⟩, ⟨"b", 2⟩] ["c"] = [] :=
  ⟨(c2_filter_by_name_spec ExtensionInfo.name [⟨"a", 1⟩, ⟨"b", 2⟩] []).2.1 rfl,
   (c2_filter_by_name_spec ExtensionInfo.name [⟨"a", 1⟩, ⟨"b", 2⟩] ["c"]).2.2 (by decide)⟩

/-- C8: round-trip — any `LayerInfo` or `ExtensionInfo` element of a
capability-query result whose name is included in the name list passed to
`filter_by_name` appears in the filtered output as the very same element,
i.e. with every field unchanged. -/
theorem c8_filter_round_trip :
    (∀ (infos : List LayerInfo) (N : List String) (info : LayerInfo),
      info ∈ infos → info.name ∈ N → info ∈ filter_by_name LayerInfo.name infos N) ∧
    (∀ (infos : List ExtensionInfo) (N : List String) (info : ExtensionInfo),
      info ∈ infos → info.name ∈ N → info ∈ filter_by_name ExtensionInfo.name infos N) := by
  constructor <;>
  · intro infos N info hmem hname
    simp only [filter_by_name]
    rw [List.mem_filter]
    refine ⟨hmem, ?_⟩
    simp only [decide_eq_true_eq]
    exact mem_setOfList.mpr hname

theorem c8_filter_round_trip_witness :
    ((⟨"x", "desc", 1, 2⟩ : LayerInfo) ∈
      filter_by_name LayerInfo.name [⟨"x", "desc", 1, 2⟩] ["x"]) ∧
    ((⟨"y", 3⟩ : ExtensionInfo) ∈
      filter_by_name ExtensionInfo.name [⟨"y", 3⟩] ["y"]) :=
  ⟨c8_filter_round_trip.1 [⟨"x", "desc", 1, 2⟩] ["x"] ⟨"x", "desc", 1, 2⟩
      (by decide) (by decide),
   c8_filter_round_trip.2 [⟨"y", 3⟩] ["y"] ⟨"y", 3⟩ (by decide) (by decide)⟩

/-- C9 (code bug): the `NamesArray` marshalling buffers are RAII and never
leak (instance creation exits with allocation balance 0 on every path, and
the successful device-creation path also balances), but the raw
`extension_properties` array queried by `create_logical_device` is released
only by the `delete[]` on the success path: when the requested extension
`"VK_KHR_swapchain"` is missing from the reported set the function exits via
the `UnsatisfiedRequirement` throw with the array still allocated
(balance 1), contradicting the claim that every temporary buffer is released
on every exit path. -/
theorem c9_extension_properties_leak_on_error_path :
    (create_logical_device_run ⟨5, 0⟩ ⟨[], [⟨"VK_KHR_swapchain", 1⟩]⟩
        ⟨VK_SUCCESS, [⟨"VK_KHR_maintenance1", 1⟩], VK_SUCCESS,
          fun _ => VK_SUCCESS, 7⟩).2 = 1 ∧
    (create_logical_device_run ⟨5, 0⟩ ⟨[], [⟨"VK_KHR_swapchain", 1⟩]⟩
        ⟨VK_SUCCESS, [⟨"VK_KHR_maintenance1", 1⟩], VK_SUCCESS,
          fun _ => VK_SUCCESS, 7⟩).1 =
      .error (.runtimeError "Not all extensions found: VK_KHR_swapchain") ∧
    (create_logical_device_run ⟨5, 0⟩ ⟨[], [⟨"VK_KHR_swapchain", 1⟩]⟩
        ⟨VK_SUCCESS, [⟨"VK_KHR_swapchain", 1⟩], VK_SUCCESS,
          fun _ => VK_SUCCESS, 7⟩).2 = 0 ∧
    (∀ (parameters : ICreateInstanceParameters) (env : InstanceEnv),
      (create_instance_run parameters env).2 = 0) := by
  refine ⟨rfl, rfl, rfl, fun parameters env => ?_⟩
  rw [create_instance_run]
  split <;> rfl

/-- C7: the queue-family index of a `PhysicalDevice` is fixed at selection
time and is the value used in every subsequent operation: the single
queue-creation request inside the submitted `VkDeviceCreateInfo` carries
exactly that index, a successfully created `LogicalDevice` carries the same
index, and `is_surface_supported` queries the driver at that same index. -/
theorem c7_queue_family_index_fixed (pd : PhysicalDevice)
    (parameters : IRequestLayerAndExtensions) (env : DeviceEnv) (ld : LogicalDevice)
    (h : create_logical_device pd parameters env = .ok ld) :
    ((device_create_info pd parameters).queueCreateInfos.map
        VkDeviceQueueCreateInfo.queueFamilyIndex = [pd.queue_family_index]) ∧
    ld.queue_family_index = pd.queue_family_index ∧
    (∀ (s : Surface) (driver : SurfaceSupportDriver),
      driver.result pd.physical_device pd.queue_family_index s.surface = VK_SUCCESS →
      is_surface_supported pd s driver =
        driver.answer pd.physical_device pd.queue_family_index s.surface) := by
  refine ⟨rfl, ?_, ?_⟩
  · rw [create_logical_device, create_logical_device_run] at h
    repeat' split at h
    any_goals exact Except.noConfusion h
    rw [← Except.ok.inj h]
  · intro s driver hr
    rw [is_surface_supported, if_pos hr]

theorem c7_queue_family_index_fixed_witness :
    ((device_create_info ⟨3, 4⟩ ⟨[], []⟩).queueCreateInfos.map
        VkDeviceQueueCreateInfo.queueFamilyIndex = [4]) ∧
    (⟨9, 4⟩ : LogicalDevice).queue_family_index = (⟨3, 4⟩ : PhysicalDevice).queue_family_index :=
  ⟨(c7_queue_family_index_fixed ⟨3, 4⟩ ⟨[], []⟩
      ⟨VK_SUCCESS, [⟨"e", 1⟩], VK_SUCCESS, fun _ => VK_SUCCESS, 9⟩ ⟨9, 4⟩ rfl).1,
   (c7_queue_family_index_fixed ⟨3, 4⟩ ⟨[], []⟩
      ⟨VK_SUCCESS, [⟨"e", 1⟩], VK_SUCCESS, fun _ => VK_SUCCESS, 9⟩ ⟨9, 4⟩ rfl).2.1⟩

/-- C1 (amended): provided the per-device extension query succeeds and
reports a non-empty supported set S, `create_logical_device` fails with the
`UnsatisfiedRequirement` error if and only if the requested name set R is not
a subset of S, and in that case the error message is the fixed text followed
by the sorted, duplicate-free set difference R − S with each missing name
preceded by one space (the names joined by spaces). -/
theorem c1_device_extension_gate (pd : PhysicalDevice)
    (parameters : IRequestLayerAndExtensions) (env : DeviceEnv)
    (h1 : env.extCountResult = VK_SUCCESS)
    (h2 : env.extFillResult = VK_SUCCESS)
    (h3 : env.deviceExtensions ≠ []) :
    ((¬ ∀ n ∈ parameters.requested_extensions.map ExtensionInfo.name,
        n ∈ env.deviceExtensions.map VkExtensionProperties.extensionName) ↔
      unsatisfied_requirement_b (create_logical_device pd parameters env) = true) ∧
    ((¬ ∀ n ∈ parameters.requested_extensions.map ExtensionInfo.name,
        n ∈ env.deviceExtensions.map VkExtensionProperties.extensionName) →
      ∃ D : List String,
        D.Sorted (· < ·) ∧ D.Nodup ∧
        (∀ n, n ∈ D ↔
          (n ∈ parameters.requested_extensions.map ExtensionInfo.name ∧
           n ∉ env.deviceExtensions.map VkExtensionProperties.extensionName)) ∧
        create_logical_device pd parameters env =
          .error (.runtimeError ("Not all extensions found:" ++ space_join D))) := by
  have hmemReq : ∀ n, n ∈ requested_name_set parameters ↔
      n ∈ parameters.requested_extensions.map ExtensionInfo.name := by
    intro n
    rw [requested_name_set, mem_setOfList]
  have hmemFound : ∀ n, n ∈ found_name_set parameters env.deviceExtensions ↔
      (n ∈ env.deviceExtensions.map VkExtensionProperties.extensionName ∧
       n ∈ requested_name_set parameters) := by
    intro n
    rw [found_name_set, mem_setOfList, List.mem_filter]
    simp
  have hsub : ∀ n ∈ found_name_set parameters env.deviceExtensions,
      n ∈ requested_name_set parameters :=
    fun n hn => ((hmemFound n).1 hn).2
  have hlen : (found_name_set parameters env.deviceExtensions).length =
      (requested_name_set parameters).length ↔
      (∀ n ∈ parameters.requested_extensions.map ExtensionInfo.name,
        n ∈ env.deviceExtensions.map VkExtensionProperties.extensionName) := by
    rw [nodup_subset_length_eq (A := found_name_set parameters env.deviceExtensions)
      (B := requested_name_set parameters) (nodup_setOfList _) (nodup_setOfList _) hsub]
    constructor
    · intro h n hnR
      exact ((hmemFound n).1 (h n ((hmemReq n).2 hnR))).1
    · intro h n hn
      exact (hmemFound n).2 ⟨h n ((hmemReq n).1 hn), hn⟩
  have hne1 : ¬ (env.extCountResult ≠ VK_SUCCESS) := by simp [h1]
  have hne2 : ¬ (env.deviceExtensions.length = 0) := by
    simpa [List.length_eq_zero] using h3
  have hne3 : ¬ (env.extFillResult ≠ VK_SUCCESS) := by simp [h2]
  by_cases hRS : ∀ n ∈ parameters.requested_extensions.map ExtensionInfo.name,
      n ∈ env.deviceExtensions.map VkExtensionProperties.extensionName
  · have hlen2 : ¬ ((found_name_set parameters env.deviceExtensions).length ≠
        (requested_name_set parameters).length) := by
      simpa using hlen.mpr hRS
    have hres : create_logical_device pd parameters env =
        (if env.createDevice (device_create_info pd parameters) ≠ VK_SUCCESS then
          .error (.vulkanException (env.createDevice (device_create_info pd parameters))
            "Error while creating logical devive")
        else .ok { device := env.deviceHandle,
                   queue_family_index := pd.queue_family_index }) := by
      rw [create_logical_device, create_logical_device_run,
        if_neg hne1, if_neg hne2, if_neg hne3, if_neg hlen2]
      split <;> rfl
    refine ⟨⟨fun hc => absurd hRS hc, fun hb => ?_⟩, fun hc => absurd hRS hc⟩
    exfalso
    rw [hres] at hb
    revert hb
    split <;> simp [unsatisfied_requirement_b]
  · have hlen2 : (found_name_set parameters env.deviceExtensions).length ≠
        (requested_name_set parameters).length := fun he => hRS (hlen.mp he)
    have hres : create_logical_device pd parameters env =
        .error (.runtimeError ("Not all extensions found:" ++
          not_found_names_str parameters env.deviceExtensions)) := by
      rw [create_logical_device, create_logical_device_run,
        if_neg hne1, if_neg hne2, if_neg hne3, if_pos hlen2]
    have hstr : not_found_names_str parameters env.deviceExtensions =
        space_join (not_found_names parameters env.deviceExtensions) := by
      rw [not_found_names_str, foldl_space_append, string_empty_append]
    have hmemD : ∀ n, n ∈ not_found_names parameters env.deviceExtensions ↔
        (n ∈ parameters.requested_extensions.map ExtensionInfo.name ∧
         n ∉ env.deviceExtensions.map VkExtensionProperties.extensionName) := by
    { intro n
      rw [not_found_names, List.mem_filter]
      simp only [decide_eq_true_eq]
      constructor
      · rintro ⟨hreq, hnf⟩
        refine ⟨(hmemReq n).1 hreq, fun hnS => hnf ((hmemFound n).2 ⟨hnS, hreq⟩)⟩
      · rintro ⟨hnR, hnS⟩
        exact ⟨(hmemReq n).2 hnR, fun hf => hnS ((hmemFound n).1 hf).1⟩ }
    refine ⟨⟨fun _ => ?_, fun _ => hRS⟩, fun _ => ?_⟩
    · rw [hres, hstr]
      exact unsat_b_of_payload _
    · refine ⟨not_found_names parameters env.deviceExtensions, ?_, ?_, hmemD, ?_⟩
      · exact (sorted_setOfList _).sublist (List.filter_sublist _)
      · exact (nodup_setOfList _).sublist (List.filter_sublist _)
      · rw [hres, hstr]

theorem c1_device_extension_gate_witness :
    unsatisfied_requirement_b (create_logical_device ⟨5, 0⟩
      ⟨[], [⟨"VK_KHR_swapchain", 1⟩]⟩
      ⟨VK_SUCCESS, [⟨"VK_KHR_maintenance1", 1⟩], VK_SUCCESS,
        fun _ => VK_SUCCESS, 7⟩) = true :=
  (c1_device_extension_gate ⟨5, 0⟩ ⟨[], [⟨"VK_KHR_swapchain", 1⟩]⟩
    ⟨VK_SUCCESS, [⟨"VK_KHR_maintenance1", 1⟩], VK_SUCCESS, fun _ => VK_SUCCESS, 7⟩
    rfl rfl (by decide)).1.mp (by decide)

/-- C1 counterexample: with requested set R = {"VK_KHR_swapchain"} and a
supported set S = ∅ reported by the accelerator (both enumeration calls
succeeding), R is not a subset of S, yet `create_logical_device` fails with
the `EmptyResult` runtime error ("No properties array found for physical
device") and not with an `UnsatisfiedRequirement` error, contradicting the
claimed equivalence. -/
theorem c1_empty_supported_set_counterexample :
    ("VK_KHR_swapchain" ∈ (["VK_KHR_swapchain"] : List String)) ∧
    ("VK_KHR_swapchain" ∉ ([] : List String)) ∧
    create_logical_device ⟨5, 0⟩ ⟨[], [⟨"VK_KHR_swapchain", 1⟩]⟩
        ⟨VK_SUCCESS, [], VK_SUCCESS, fun _ => VK_SUCCESS, 7⟩ =
      .error (.runtimeError "No properties array found for physical device") ∧
    unsatisfied_requirement_b (create_logical_device ⟨5, 0⟩
        ⟨[], [⟨"VK_KHR_swapchain", 1⟩]⟩
        ⟨VK_SUCCESS, [], VK_SUCCESS, fun _ => VK_SUCCESS, 7⟩) = false :=
  ⟨by decide, by decide, rfl, by decide⟩

end Vulkan
